import Mathlib

/-!
Verification development for the IBL SmartSPIM conversion launcher
(`src/code/extension.py`): a shallow embedding of the manifest
orchestration engine — Neuroglancer state parsing, artifact catalog
listing/sorting, manifest cross-product building, manifest-asset
lifecycle and the data-converter computation trigger — together with
theorems settling the specification's claims about it.
-/

namespace IBLConv

/-- A CodeOcean data-asset reference as the extension reads it:
`id`, `name` and a creation timestamp `created` (seconds since epoch). -/
structure DataAsset where
  id : String
  name : String
  created : Nat
  deriving DecidableEq

/-- Ascending order on creation time, the key used by
`aind_session.utils.codeocean_utils.sort_by_created`. -/
def createdLe (a b : DataAsset) : Prop := a.created ≤ b.created

instance : DecidableRel createdLe :=
  fun a b => inferInstanceAs (Decidable (a.created ≤ b.created))

instance : IsTotal DataAsset createdLe :=
  ⟨fun a b => Nat.le_total a.created b.created⟩

instance : IsTrans DataAsset createdLe :=
  ⟨fun _ _ _ h h2 => Nat.le_trans h h2⟩

/-- Modelled from the spec: `aind_session.utils.codeocean_utils.sort_by_created`
is external to this repository; the spec fixes its contract as a stable sort
ascending by `createdAt` with ties broken by arrival order, which a stable
insertion sort realises. -/
def sortByCreated (l : List DataAsset) : List DataAsset :=
  List.insertionSort createdLe l

/-- One manifest row, mirroring `IBLDataConverterExtension.ManifestRecord`
(fields in the dataclass's declared column order). -/
structure ManifestRecord where
  mouseid : String
  probe_id : String
  probe_name : String
  sorted_recording : String
  probe_file : String
  surface_finding : Option Int
  annotation_format : String
  deriving DecidableEq

/-- The record built in the body of `get_partial_df`'s nested loop:
`probe_name` blank, `surface_finding` unused, `annotation_format` "json". -/
def mkManifestRecord (mouseid probe_id probe_file sorted_recording : String) :
    ManifestRecord :=
  { mouseid := mouseid
    probe_id := probe_id
    probe_name := ""
    sorted_recording := sorted_recording
    probe_file := probe_file
    surface_finding := none
    annotation_format := "json" }

/-- The nested `for annotation_name … for sorted_data_asset_name …` loop of
`IBLDataConverterExtension.get_partial_df` (lines 420-430): one record per
(label, recording-name) pair, label as the outer loop. -/
def buildRows (labels names : List String) (mouseid probe_file : String) :
    List ManifestRecord :=
  match labels with
  | [] => []
  | label :: rest =>
    names.map (fun n => mkManifestRecord mouseid label probe_file n) ++
      buildRows rest names mouseid probe_file

theorem buildRows_length (labels names : List String) (m f : String) :
    (buildRows labels names m f).length = labels.length * names.length := by
  induction labels with
  | nil => simp [buildRows]
  | cons a rest ih =>
    simp only [buildRows, List.length_append, List.length_map, List.length_cons, ih,
      Nat.succ_mul]
    omega

theorem buildRows_getElem? (labels names : List String) (m f : String)
    (i j : Nat) (hi : i < labels.length) (hj : j < names.length) :
    (buildRows labels names m f)[i * names.length + j]? =
      some (mkManifestRecord m (labels.get ⟨i, hi⟩) f (names.get ⟨j, hj⟩)) := by
  induction labels generalizing i with
  | nil => exact absurd hi (by simp)
  | cons a rest ih =>
    cases i with
    | zero =>
      simp only [buildRows, Nat.zero_mul, Nat.zero_add]
      rw [List.getElem?_append_left (by simpa using hj)]
      simp [List.getElem?_eq_getElem hj]
    | succ i =>
      have hlen : (names.map (fun n => mkManifestRecord m a f n)).length ≤
          (i + 1) * names.length + j := by
        simp [Nat.succ_mul]
        omega
      simp only [buildRows]
      rw [List.getElem?_append_right hlen]
      have harith : (i + 1) * names.length + j -
          (names.map (fun n => mkManifestRecord m a f n)).length =
          i * names.length + j := by
        simp [Nat.succ_mul]
        omega
      rw [harith]
      exact ih i (by simpa using Nat.lt_of_succ_lt_succ (Nat.succ_lt_succ hi))

/-- C1: `get_partial_df`'s loop produces exactly `m * n` rows, label as the
outer loop and recording name as the inner loop: row `i * n + j` pairs the
`i`-th label with the `j`-th recording name. -/
theorem C1_buildRows_cross_product (labels names : List String) (m f : String)
    (i j : Nat) (hi : i < labels.length) (hj : j < names.length) :
    (buildRows labels names m f).length = labels.length * names.length ∧
      (buildRows labels names m f)[i * names.length + j]? =
        some (mkManifestRecord m (labels.get ⟨i, hi⟩) f (names.get ⟨j, hj⟩)) :=
  ⟨buildRows_length labels names m f, buildRows_getElem? labels names m f i j hi hj⟩

/-- Witness for C1 at a concrete input: two labels and two recording names
give four rows and row `1 * 2 + 0` pairs the second label with the first name. -/
theorem C1_buildRows_cross_product_witness :
    (buildRows ["probeA", "probeB"] ["rec1", "rec2"] "123456" "state").length = 2 * 2 ∧
      (buildRows ["probeA", "probeB"] ["rec1", "rec2"] "123456" "state")[1 * 2 + 0]? =
        some (mkManifestRecord "123456" "probeB" "state" "rec1") :=
  C1_buildRows_cross_product ["probeA", "probeB"] ["rec1", "rec2"] "123456" "state"
    1 0 (by decide) (by decide)

/-- C8: the cross-product is empty whenever either input list is empty, and
neither case is an error (the function totally returns `[]`). -/
theorem C8_buildRows_empty (labels names : List String) (m f : String) :
    buildRows labels [] m f = [] ∧ buildRows [] names m f = [] := by
  refine ⟨?_, rfl⟩
  induction labels with
  | nil => rfl
  | cons a rest ih => simp [buildRows, ih]

/-! ## Neuroglancer state model -/

/-- One entry of `content["layers"]`; `source = none` models a layer without
a `"source"` key (its access raises `KeyError` in the Python). The source of
an image layer is the bare string or the object's `url` field, collapsed here
to the string it yields. -/
structure Layer where
  type : String
  name : String
  source : Option String
  deriving DecidableEq

/-- The parsed Neuroglancer state document; `layers = none` models a document
without a `"layers"` key. -/
structure NGContent where
  layers : Option (List Layer)
  deriving DecidableEq

/-- `NeuroglancerState.image_sources`: sources of the `"image"` layers, in
document order; any `KeyError` (missing `"layers"`, or an image layer with no
source) makes the whole property return the empty tuple. -/
def imageSources (c : NGContent) : List String :=
  match c.layers with
  | none => []
  | some ls =>
    let imgs := ls.filter (fun l => l.type == "image")
    if imgs.all (fun l => l.source.isSome) then imgs.filterMap (fun l => l.source)
    else []

/-- `NeuroglancerState.annotation_names`: names of the `"annotation"` layers
in document order, duplicates preserved. -/
def annotationNames (c : NGContent) : List String :=
  match c.layers with
  | none => []
  | some ls => (ls.filter (fun l => l.type == "annotation")).map (fun l => l.name)

/-- The two failure modes of `NeuroglancerState.session`:
`ambiguousIdentity` is the `ValueError` raised when no session ID can be
extracted, `multiSourceUnsupported` the `NotImplementedError` raised for
multiple distinct session IDs. -/
inductive SessionError
  | ambiguousIdentity
  | multiSourceUnsupported
  deriving DecidableEq

/-- `NeuroglancerState.session` over an explicit source list. The extractor
(`npc_session.AINDSessionRecord`, external) returns `none` exactly when the
Python constructor raises `ValueError`, which the loop swallows with
`continue`; the extracted IDs are collected into a set (here: `dedup`). -/
def sessionOfSources (extract : String → Option String) (sources : List String) :
    Except SessionError String :=
  match (sources.filterMap extract).dedup with
  | [] => .error .ambiguousIdentity
  | [i] => .ok i
  | _ :: _ :: _ => .error .multiSourceUnsupported

/-- `NeuroglancerState.session` on a document: resolution over its image
sources. -/
def sessionOf (extract : String → Option String) (c : NGContent) :
    Except SessionError String :=
  sessionOfSources extract (imageSources c)

/-- C2: identity resolution returns the unique identity when exactly one
distinct identity is extractable across the image sources, fails with the
zero-identity error when none is, with the multiple-identity error when more
than one distinct identity is, and a non-matching source is silently skipped
(appending it changes nothing, it is not itself an error). -/
theorem C2_session_identity_resolution :
    (∀ (extract : String → Option String) (c : NGContent) (i : String),
        ((imageSources c).filterMap extract).dedup = [i] →
          sessionOf extract c = .ok i) ∧
      (∀ (extract : String → Option String) (c : NGContent),
          ((imageSources c).filterMap extract).dedup = [] →
            sessionOf extract c = .error .ambiguousIdentity) ∧
      (∀ (extract : String → Option String) (c : NGContent),
          2 ≤ ((imageSources c).filterMap extract).dedup.length →
            sessionOf extract c = .error .multiSourceUnsupported) ∧
      (∀ (extract : String → Option String) (sources : List String) (s : String),
          extract s = none →
            sessionOfSources extract (sources ++ [s]) =
              sessionOfSources extract sources) := by
  refine ⟨?_, ?_, ?_, ?_⟩
  · intro extract c i h
    simp [sessionOf, sessionOfSources, h]
  · intro extract c h
    simp [sessionOf, sessionOfSources, h]
  · intro extract c h
    unfold sessionOf sessionOfSources
    match hd : ((imageSources c).filterMap extract).dedup with
    | [] => rw [hd] at h; simp at h
    | [i] => rw [hd] at h; simp at h
    | _ :: _ :: _ => rfl
  · intro extract sources s h
    unfold sessionOfSources
    rw [List.filterMap_append]
    simp [List.filterMap, h]

/-- Witness for C2: a document with two image sources of the same session and
one junk source resolves to that session, applied through each conjunct. -/
theorem C2_session_identity_resolution_witness :
    sessionOf
        (fun s => if s = "SmartSPIM_123456_2023-01-01_00-00-00" then some "123456" else none)
        ⟨some [⟨"image", "a", some "SmartSPIM_123456_2023-01-01_00-00-00"⟩,
               ⟨"image", "b", some "SmartSPIM_123456_2023-01-01_00-00-00"⟩]⟩ =
      .ok "123456" ∧
    sessionOf (fun _ => none) ⟨some []⟩ = .error .ambiguousIdentity ∧
    sessionOf (fun s => some s)
        ⟨some [⟨"image", "a", some "x"⟩, ⟨"image", "b", some "y"⟩]⟩ =
      .error .multiSourceUnsupported ∧
    sessionOfSources (fun _ => none) (["junk"] ++ ["junk2"]) =
      sessionOfSources (fun _ => none) ["junk"] :=
  ⟨C2_session_identity_resolution.1 _ _ "123456" (by decide),
   C2_session_identity_resolution.2.1 _ _ (by decide),
   C2_session_identity_resolution.2.2.1 _ _ (by decide),
   C2_session_identity_resolution.2.2.2 (fun _ => none) ["junk"] "junk2" rfl⟩

/-! ## Name-filtered sorted-asset listing (`get_sorted_data_assets`) -/

/-- `IBLDataConverterExtension.get_sorted_data_assets` over the flattened
candidate collection (the kilosort2.5 sorted assets of the subject's ecephys
sessions, fetched externally): keeps every asset whose name is in the
requested set when one is supplied (the empty set means "all"), then warns
once for each requested name matched by no kept asset. Returns
(results, warned names). -/
def getSortedDataAssets (assets : List DataAsset) (names : List String) :
    List DataAsset × List String :=
  let results := assets.filter
    (fun a => if names.isEmpty then true else names.contains a.name)
  (results, names.filter (fun n => !(results.any (fun a => a.name == n))))

/-- C9: with a non-empty name set the result is exactly the assets whose name
is in the set, and a warning is emitted exactly for the requested names that
match no asset of the collection; with an empty name set the full collection
is returned unchanged, with no warnings. -/
theorem C9_getSortedDataAssets_filter :
    (∀ assets : List DataAsset, getSortedDataAssets assets [] = (assets, [])) ∧
      (∀ (assets : List DataAsset) (names : List String) (a : DataAsset),
          names ≠ [] →
            (a ∈ (getSortedDataAssets assets names).1 ↔
              a ∈ assets ∧ a.name ∈ names)) ∧
      (∀ (assets : List DataAsset) (names : List String) (n : String),
          n ∈ (getSortedDataAssets assets names).2 ↔
            n ∈ names ∧ ∀ a ∈ assets, a.name ≠ n) := by
  refine ⟨?_, ?_, ?_⟩
  · intro assets
    simp [getSortedDataAssets]
  · intro assets names a h
    have hne : names.isEmpty = false := by
      cases names with
      | nil => exact absurd rfl h
      | cons x xs => rfl
    simp [getSortedDataAssets, hne, List.mem_filter]
  · intro assets names n
    constructor
    · intro hmem
      rw [getSortedDataAssets, List.mem_filter] at hmem
      obtain ⟨hn, hany⟩ := hmem
      refine ⟨hn, ?_⟩
      intro a ha hname
      have hne : names.isEmpty = false := by
        cases names with
        | nil => simp at hn
        | cons x xs => rfl
      have hres : a ∈ assets.filter
          (fun a => if names.isEmpty then true else names.contains a.name) := by
        rw [List.mem_filter]
        exact ⟨ha, by simp [hne, hname, hn]⟩
      simp only [Bool.not_eq_true', List.any_eq_false] at hany
      exact absurd (by simp [hname]) (hany a hres)
    · intro ⟨hn, hnone⟩
      rw [getSortedDataAssets, List.mem_filter]
      refine ⟨hn, ?_⟩
      simp only [Bool.not_eq_true', List.any_eq_false]
      intro a ha
      have : a ∈ assets := (List.mem_filter.mp ha).1
      simp [hnone a this]

/-- Witness for C9: with requested names {rawB, missing} over a two-asset
collection, only rawB is kept and only "missing" is warned about. -/
theorem C9_getSortedDataAssets_filter_witness :
    (⟨"b", "rawB", 2⟩ : DataAsset) ∈
        (getSortedDataAssets [⟨"a", "rawA", 1⟩, ⟨"b", "rawB", 2⟩]
          ["rawB", "missing"]).1 ∧
      "missing" ∈
        (getSortedDataAssets [⟨"a", "rawA", 1⟩, ⟨"b", "rawB", 2⟩]
          ["rawB", "missing"]).2 :=
  ⟨(C9_getSortedDataAssets_filter.2.1 [⟨"a", "rawA", 1⟩, ⟨"b", "rawB", 2⟩]
      ["rawB", "missing"] ⟨"b", "rawB", 2⟩ (by decide)).mpr (by decide),
   (C9_getSortedDataAssets_filter.2.2 [⟨"a", "rawA", 1⟩, ⟨"b", "rawB", 2⟩]
      ["rawB", "missing"] "missing").mpr (by decide)⟩

/-! ## `get_partial_df` argument handling -/

/-- The `sorted_data_asset_names` argument of `get_partial_df`: a bare string
or a sequence of strings. -/
inductive NamesArg
  | str (s : String)
  | list (l : List String)
  deriving DecidableEq

/-- Python's `sorted` on strings: lexicographic ascending. -/
def sortNamesLex (l : List String) : List String :=
  List.insertionSort (fun a b => a ≤ b) l

/-- Lines 413-418 of `get_partial_df`: a bare string becomes a one-element
tuple; an empty sequence is replaced by the lexicographically sorted names of
the subject's (non-errored) sorted data assets. -/
def resolveSortedNames (arg : NamesArg) (sortedAssets : List DataAsset) :
    List String :=
  let names := match arg with | .str s => [s] | .list l => l
  if names.isEmpty then sortNamesLex (sortedAssets.map (fun a => a.name))
  else names

/-- `IBLDataConverterExtension.get_partial_df` after the state document has
been loaded: argument normalisation followed by the cross-product loop.
`sortedAssets` is the subject's non-errored sorted data-asset collection
(`self.sorted_data_assets`). -/
def getPartialDf (subjectId stateName : String) (c : NGContent)
    (sortedAssets : List DataAsset) (arg : NamesArg) : List ManifestRecord :=
  buildRows (annotationNames c) (resolveSortedNames arg sortedAssets)
    subjectId stateName

/-- C10: an empty recording-name argument is replaced by the lexicographically
sorted names of all the subject's sorted data assets — so with at least one
annotation label and at least one sorted asset the result is non-empty — and
a bare string argument is treated as a one-element list. -/
theorem C10_getPartialDf_name_substitution :
    (∀ (sid st : String) (c : NGContent) (assets : List DataAsset) (s : String),
        getPartialDf sid st c assets (.str s) =
          getPartialDf sid st c assets (.list [s])) ∧
      (∀ (sid st : String) (c : NGContent) (assets : List DataAsset),
          getPartialDf sid st c assets (.list []) =
            buildRows (annotationNames c)
              (sortNamesLex (assets.map (fun a => a.name))) sid st) ∧
      (∀ (sid st : String) (c : NGContent) (assets : List DataAsset),
          annotationNames c ≠ [] → assets ≠ [] →
            getPartialDf sid st c assets (.list []) ≠ []) := by
  refine ⟨?_, ?_, ?_⟩
  · intro sid st c assets s
    rfl
  · intro sid st c assets
    rfl
  · intro sid st c assets hlabels hassets
    intro hcontra
    have hlen := congrArg List.length hcontra
    rw [getPartialDf, buildRows_length] at hlen
    simp only [List.length_nil] at hlen
    have hL : 0 < (annotationNames c).length := List.length_pos.mpr hlabels
    have hN : 0 < (resolveSortedNames (.list []) assets).length := by
      have hperm := List.perm_insertionSort (fun a b : String => a ≤ b)
        (assets.map (fun a => a.name))
      have : (resolveSortedNames (.list []) assets).length =
          assets.length := by
        simp [resolveSortedNames, sortNamesLex, hperm.length_eq]
      rw [this]
      exact List.length_pos.mpr hassets
    have := Nat.mul_pos hL hN
    omega

/-- Witness for C10: one label and one asset give a non-empty result, and a
bare string argument equals the one-element list argument. -/
theorem C10_getPartialDf_name_substitution_witness :
    getPartialDf "744740" "state" ⟨some [⟨"annotation", "probeA", none⟩]⟩
        [⟨"a", "rawA", 1⟩] (.list []) ≠ [] ∧
      getPartialDf "744740" "state" ⟨some [⟨"annotation", "probeA", none⟩]⟩
          [⟨"a", "rawA", 1⟩] (.str "rec1") =
        getPartialDf "744740" "state" ⟨some [⟨"annotation", "probeA", none⟩]⟩
          [⟨"a", "rawA", 1⟩] (.list ["rec1"]) :=
  ⟨C10_getPartialDf_name_substitution.2.2 "744740" "state"
      ⟨some [⟨"annotation", "probeA", none⟩]⟩ [⟨"a", "rawA", 1⟩]
      (by decide) (by decide),
   C10_getPartialDf_name_substitution.1 "744740" "state"
      ⟨some [⟨"annotation", "probeA", none⟩]⟩ [⟨"a", "rawA", 1⟩] "rec1"⟩

/-! ## Catalog listing and creation-time sorting -/

instance {ε α : Type} [DecidableEq ε] [DecidableEq α] : DecidableEq (Except ε α)
  | .error a, .error b =>
    if h : a = b then isTrue (h ▸ rfl)
    else isFalse (fun hc => by cases hc; exact h rfl)
  | .error _, .ok _ => isFalse (fun hc => Except.noConfusion hc)
  | .ok _, .error _ => isFalse (fun hc => Except.noConfusion hc)
  | .ok a, .ok b =>
    if h : a = b then isTrue (h ▸ rfl)
    else isFalse (fun hc => by cases hc; exact h rfl)

theorem sortByCreated_sorted (l : List DataAsset) :
    (sortByCreated l).Sorted createdLe :=
  List.sorted_insertionSort createdLe l

theorem mem_sortByCreated {x : DataAsset} {l : List DataAsset} :
    x ∈ sortByCreated l ↔ x ∈ l :=
  (List.perm_insertionSort createdLe l).mem_iff

theorem sorted_getLast?_max :
    ∀ {l : List DataAsset} {y : DataAsset}, l.Sorted createdLe →
      l.getLast? = some y → ∀ x ∈ l, x.created ≤ y.created := by
  intro l
  induction l with
  | nil => intro y _ h; simp at h
  | cons a t ih =>
    intro y hs hl x hx
    cases t with
    | nil =>
      have hya : a = y := by simpa using hl
      have hxa : x = a := by simpa using hx
      simp [hxa, ← hya]
    | cons b t2 =>
      rw [List.getLast?_cons_cons] at hl
      rw [List.sorted_cons] at hs
      obtain ⟨hall, hs2⟩ := hs
      rcases List.mem_cons.mp hx with hxa | hx2
      · have hy : y ∈ b :: t2 := by
          rcases List.getLast?_eq_some_iff.mp hl with ⟨ys, hys⟩
          rw [hys]
          simp
        rw [hxa]
        exact hall y hy
      · exact ih hs2 hl x hx2

/-- One `aind_session.Session` as the extension reads it: its id, platform
tag, and `raw_data_asset` (`none` when the raw data has not been uploaded or
the attribute raises). -/
structure Session where
  id : String
  platform : String
  rawDataAsset : Option DataAsset
  deriving DecidableEq

/-- Session order used by Python's `sorted` over `aind_session.Session`
objects (ordered by id). -/
def sessionIdLe (a b : Session) : Prop := a.id ≤ b.id

instance : DecidableRel sessionIdLe :=
  fun a b => inferInstanceAs (Decidable (a.id ≤ b.id))

/-- `IBLDataConverterExtension.ecephys_sessions`: the subject's ecephys
sessions, sorted. -/
def ecephysSessions (sessions : List Session) : List Session :=
  List.insertionSort sessionIdLe
    (sessions.filter (fun s => s.platform == "ecephys"))

/-- `IBLDataConverterExtension.ecephys_data_assets`: raw data assets of the
ecephys sessions (sessions without one are logged and skipped), sorted by
creation time. -/
def ecephysDataAssets (sessions : List Session) : List DataAsset :=
  sortByCreated ((ecephysSessions sessions).filterMap (fun s => s.rawDataAsset))

/-- `IBLDataConverterExtension.smartspim_data_assets`: raw data assets of the
SmartSPIM sessions (sessions without one are logged and skipped), sorted by
creation time. -/
def smartspimDataAssets (sessions : List Session) : List DataAsset :=
  sortByCreated
    ((sessions.filter (fun s => s.platform == "SmartSPIM")).filterMap
      (fun s => s.rawDataAsset))

/-- Modelled from the spec: `aind_session.utils.codeocean_utils.get_data_assets`
is external to this repository; per the spec's lookup contract it returns the
catalog's assets registered under the given name as a created-time-sorted
collection. -/
def getDataAssetsByName (catalog : List DataAsset) (name : String) :
    List DataAsset :=
  sortByCreated (catalog.filter (fun a => a.name == name))

/-- The stem of `IBLDataConverterExtension.csv_manifest_path`:
`<subject>_data_converter_manifest`. -/
def manifestStem (subjectId : String) : String :=
  subjectId ++ "_data_converter_manifest"

/-- `IBLDataConverterExtension.manifest_data_asset`: the most recent (last)
asset registered under the manifest stem; `none` models the `AttributeError`
raised when no matching asset exists yet. -/
def manifestDataAsset? (catalog : List DataAsset) (subjectId : String) :
    Option DataAsset :=
  (getDataAssetsByName catalog (manifestStem subjectId)).getLast?

/-- C7: the catalog listing operations return collections sorted
non-decreasing in creation time, and every "most recent" selection (the last
element) has maximal `createdAt`: shown for `ecephys_data_assets`,
`smartspim_data_assets`, and the `manifest_data_asset` selection over the
assets registered under the manifest name. -/
theorem C7_sorted_collections_and_most_recent :
    (∀ sessions : List Session,
        (ecephysDataAssets sessions).Sorted createdLe ∧
          (smartspimDataAssets sessions).Sorted createdLe) ∧
      (∀ (sessions : List Session) (y : DataAsset),
          (ecephysDataAssets sessions).getLast? = some y →
            ∀ x ∈ ecephysDataAssets sessions, x.created ≤ y.created) ∧
      (∀ (catalog : List DataAsset) (sid : String) (y : DataAsset),
          manifestDataAsset? catalog sid = some y →
            ∀ x ∈ catalog.filter (fun a => a.name == manifestStem sid),
              x.created ≤ y.created) := by
  refine ⟨?_, ?_, ?_⟩
  · intro sessions
    exact ⟨sortByCreated_sorted _, sortByCreated_sorted _⟩
  · intro sessions y hy
    exact sorted_getLast?_max (sortByCreated_sorted _) hy
  · intro catalog sid y hy x hx
    have hx2 : x ∈ getDataAssetsByName catalog (manifestStem sid) :=
      mem_sortByCreated.mpr hx
    exact sorted_getLast?_max (sortByCreated_sorted _) hy x hx2

/-- Witness for C7: an ecephys listing whose last element bounds its members,
and a two-asset manifest catalog whose lookup returns the newer asset, which
dominates the older match in creation time. -/
theorem C7_sorted_collections_and_most_recent_witness :
    (⟨"a", "rawA", 5⟩ : DataAsset).created ≤
        (⟨"a", "rawA", 5⟩ : DataAsset).created ∧
      (⟨"m1", "744740_data_converter_manifest", 1⟩ : DataAsset).created ≤
        (⟨"m2", "744740_data_converter_manifest", 4⟩ : DataAsset).created :=
  ⟨C7_sorted_collections_and_most_recent.2.1
      [⟨"s1", "ecephys", some ⟨"a", "rawA", 5⟩⟩]
      ⟨"a", "rawA", 5⟩ (by decide) ⟨"a", "rawA", 5⟩ (by decide),
   C7_sorted_collections_and_most_recent.2.2
      [⟨"m1", "744740_data_converter_manifest", 1⟩,
       ⟨"m2", "744740_data_converter_manifest", 4⟩] "744740"
      ⟨"m2", "744740_data_converter_manifest", 4⟩ (by decide)
      ⟨"m1", "744740_data_converter_manifest", 1⟩ (by decide)⟩

/-! ## Fan-out discovery of sorted data assets (`sorted_data_assets`) -/

/-- An exception raised inside one experiment's fetch task. -/
inductive FetchError
  | fetchFailure
  deriving DecidableEq

/-- The `as_completed` loop of `IBLDataConverterExtension.sorted_data_assets`
over the per-session fetch outcomes in completion order: `future.result()`
re-raises a task's exception (there is no try/except around it), a session
with no non-errored sorted assets is logged and skipped, and any other
result extends the aggregate. -/
def aggregateSorted :
    List (Except FetchError (List DataAsset)) → Except FetchError (List DataAsset)
  | [] => .ok []
  | .error e :: _ => .error e
  | .ok [] :: rest => aggregateSorted rest
  | .ok (a :: tl) :: rest =>
    match aggregateSorted rest with
    | .error e => .error e
    | .ok acc => .ok ((a :: tl) ++ acc)

/-- `IBLDataConverterExtension.sorted_data_assets`: the aggregate of the
fan-out, sorted by creation time (or the propagated task exception). -/
def sortedDataAssetsRun
    (fetches : List (Except FetchError (List DataAsset))) :
    Except FetchError (List DataAsset) :=
  match aggregateSorted fetches with
  | .error e => .error e
  | .ok assets => .ok (sortByCreated assets)

theorem aggregateSorted_error_of_mem :
    ∀ {fetches : List (Except FetchError (List DataAsset))} {e : FetchError},
      Except.error e ∈ fetches → ∃ e2, aggregateSorted fetches = .error e2 := by
  intro fetches
  induction fetches with
  | nil => intro e h; simp at h
  | cons head rest ih =>
    intro e hmem
    cases head with
    | error e0 => exact ⟨e0, rfl⟩
    | ok l =>
      have hrest : Except.error e ∈ rest := by
        rcases List.mem_cons.mp hmem with h | h
        · exact absurd h.symm (fun hc => Except.noConfusion hc)
        · exact h
      obtain ⟨e2, hagg⟩ := ih hrest
      cases l with
      | nil => exact ⟨e2, hagg⟩
      | cons a tl =>
        refine ⟨e2, ?_⟩
        simp only [aggregateSorted, hagg]

theorem aggregateSorted_map_ok (ls : List (List DataAsset)) :
    aggregateSorted (ls.map Except.ok) =
      .ok (ls.filter (fun l => !l.isEmpty)).flatten := by
  induction ls with
  | nil => rfl
  | cons l rest ih =>
    cases l with
    | nil => simpa [aggregateSorted] using ih
    | cons a tl => simp [aggregateSorted, ih, List.filter_cons]

/-- C6 counterexample: with three fetch tasks of which the middle one raises,
`sorted_data_assets` propagates the exception instead of returning the
aggregated, sorted assets of the other two experiments. -/
theorem C6_counterexample_fetch_error_aborts :
    sortedDataAssetsRun
        [.ok [⟨"a", "rawA", 1⟩], .error .fetchFailure, .ok [⟨"b", "rawB", 2⟩]] =
      .error .fetchFailure ∧
      sortedDataAssetsRun
          [.ok [⟨"a", "rawA", 1⟩], .error .fetchFailure, .ok [⟨"b", "rawB", 2⟩]] ≠
        .ok [⟨"a", "rawA", 1⟩, ⟨"b", "rawB", 2⟩] := by
  refine ⟨rfl, ?_⟩
  intro h
  exact Except.noConfusion h

/-- C6 amended: a fetch task that raises aborts the whole aggregation (for
every completion order, some task error makes the operation fail); only
experiments that return no non-errored assets without raising are excluded
while the rest are aggregated, and when no task raises the result is the
created-time-sorted aggregate of the non-empty per-experiment results. -/
theorem C6_amended_fetch_error_propagates :
    (∀ (fetches : List (Except FetchError (List DataAsset))) (e : FetchError),
        Except.error e ∈ fetches →
          ∃ e2, sortedDataAssetsRun fetches = .error e2) ∧
      (∀ ls : List (List DataAsset),
          sortedDataAssetsRun (ls.map Except.ok) =
            .ok (sortByCreated (ls.filter (fun l => !l.isEmpty)).flatten)) := by
  constructor
  · intro fetches e hmem
    obtain ⟨e2, hagg⟩ := aggregateSorted_error_of_mem hmem
    exact ⟨e2, by simp [sortedDataAssetsRun, hagg]⟩
  · intro ls
    simp [sortedDataAssetsRun, aggregateSorted_map_ok]

/-- Witness for C6 amended: a concrete erroring fetch list fails, and a
concrete all-ok fetch list aggregates the two non-empty results in sorted
order. -/
theorem C6_amended_fetch_error_propagates_witness :
    (∃ e2, sortedDataAssetsRun
        [.ok [⟨"a", "rawA", 1⟩], .error .fetchFailure] = .error e2) ∧
      sortedDataAssetsRun
          ([[⟨"b", "rawB", 2⟩], [], [⟨"a", "rawA", 1⟩]].map Except.ok) =
        .ok (sortByCreated [⟨"b", "rawB", 2⟩, ⟨"a", "rawA", 1⟩]) :=
  ⟨C6_amended_fetch_error_propagates.1
      [.ok [⟨"a", "rawA", 1⟩], .error .fetchFailure] .fetchFailure
      (by decide),
   C6_amended_fetch_error_propagates.2
      [[⟨"b", "rawB", 2⟩], [], [⟨"a", "rawA", 1⟩]]⟩

/-! ## Computation trigger (`run_data_converter_capsule`) -/

/-- The failure modes of `run_data_converter_capsule`, raised while building
the asset list and hence before any submission:
`sortedFetchFailed` is a propagated sorted-data fetch exception,
`emptyArtifactSet` the `IndexError` from `smartspim_data_assets[-1]` on an
empty collection, `manifestNotFound` the `AttributeError` from
`manifest_data_asset`. -/
inductive ConverterError
  | sortedFetchFailed (e : FetchError)
  | emptyArtifactSet
  | manifestNotFound
  deriving DecidableEq

/-- `codeocean.computation.DataAssetsRunParam(id=asset.id, mount=asset.name)`. -/
structure DataAssetsRunParam where
  id : String
  mount : String
  deriving DecidableEq

/-- `codeocean.computation.RunParams` as the extension fills it. -/
structure RunParams where
  capsule_id : String
  data_assets : List DataAssetsRunParam
  deriving DecidableEq

/-- The handle returned by `computations.run_capsule`: the remote platform
accepts the submitted parameters and returns immediately (the extension never
polls the computation). -/
structure Computation where
  params : RunParams
  deriving DecidableEq

def DATA_CONVERTER_CAPSULE_ID : String := "372263e6-d942-4241-ba71-763a1062f2b7"

/-- Everything `run_data_converter_capsule` reads: the subject's sessions,
the completion-order outcomes of the sorted-data fetch tasks, the remote
asset catalog, and the subject id. -/
structure RunEnv where
  sessions : List Session
  sortedFetches : List (Except FetchError (List DataAsset))
  catalog : List DataAsset
  subjectId : String

/-- `IBLDataConverterExtension.run_data_converter_capsule`: builds the
ordered data-asset list (raw ecephys assets, then sorted assets, then the
most recent SmartSPIM asset, then the manifest asset — evaluated left to
right as in the Python tuple) and submits it once via `run_capsule`. The
first component is the trace of submitted run parameters; errors while
building the list leave it empty. -/
def runDataConverterCapsule (env : RunEnv) :
    List RunParams × Except ConverterError Computation :=
  match sortedDataAssetsRun env.sortedFetches with
  | .error e => ([], .error (.sortedFetchFailed e))
  | .ok sortedAssets =>
    match (smartspimDataAssets env.sessions).getLast? with
    | none => ([], .error .emptyArtifactSet)
    | some support =>
      match manifestDataAsset? env.catalog env.subjectId with
      | none => ([], .error .manifestNotFound)
      | some manifest =>
        let params : RunParams :=
          { capsule_id := DATA_CONVERTER_CAPSULE_ID
            data_assets :=
              (ecephysDataAssets env.sessions ++ sortedAssets ++
                  [support, manifest]).map (fun a => ⟨a.id, a.name⟩) }
        ([params], .ok ⟨params⟩)

/-- C3: when the collaborators yield results, the trigger submits exactly one
run whose asset-reference list is, in order, all raw ecephys assets, then all
sorted assets, then the single most-recent SmartSPIM asset (it bounds every
SmartSPIM asset in creation time), then the manifest asset, and it returns
the handle of that one started computation (no further call after the
submission). -/
theorem C3_run_capsule_ordered_submission (env : RunEnv)
    (sortedAssets : List DataAsset) (support manifest : DataAsset)
    (h1 : sortedDataAssetsRun env.sortedFetches = .ok sortedAssets)
    (h2 : (smartspimDataAssets env.sessions).getLast? = some support)
    (h3 : manifestDataAsset? env.catalog env.subjectId = some manifest) :
    runDataConverterCapsule env =
        ([{ capsule_id := DATA_CONVERTER_CAPSULE_ID
            data_assets :=
              (ecephysDataAssets env.sessions ++ sortedAssets ++
                  [support, manifest]).map (fun a => ⟨a.id, a.name⟩) }],
          .ok ⟨{ capsule_id := DATA_CONVERTER_CAPSULE_ID
                 data_assets :=
                   (ecephysDataAssets env.sessions ++ sortedAssets ++
                       [support, manifest]).map (fun a => ⟨a.id, a.name⟩) }⟩) ∧
      ∀ x ∈ smartspimDataAssets env.sessions, x.created ≤ support.created := by
  constructor
  · simp [runDataConverterCapsule, h1, h2, h3]
  · exact sorted_getLast?_max (sortByCreated_sorted _) h2

/-- Witness for C3: one ecephys session, one successful fetch, one SmartSPIM
session and one registered manifest give the four-element asset list in
order. -/
theorem C3_run_capsule_ordered_submission_witness :
    runDataConverterCapsule
        { sessions := [⟨"s1", "ecephys", some ⟨"a", "rawA", 1⟩⟩,
                       ⟨"s2", "SmartSPIM", some ⟨"c", "spim", 3⟩⟩]
          sortedFetches := [.ok [⟨"b", "sortedB", 2⟩]]
          catalog := [⟨"m", "744740_data_converter_manifest", 4⟩]
          subjectId := "744740" } =
        ([{ capsule_id := DATA_CONVERTER_CAPSULE_ID
            data_assets := [⟨"a", "rawA"⟩, ⟨"b", "sortedB"⟩, ⟨"c", "spim"⟩,
              ⟨"m", "744740_data_converter_manifest"⟩] }],
          .ok ⟨{ capsule_id := DATA_CONVERTER_CAPSULE_ID
                 data_assets := [⟨"a", "rawA"⟩, ⟨"b", "sortedB"⟩, ⟨"c", "spim"⟩,
                   ⟨"m", "744740_data_converter_manifest"⟩] }⟩) ∧
      ∀ x ∈ smartspimDataAssets
          [⟨"s1", "ecephys", some ⟨"a", "rawA", 1⟩⟩,
           ⟨"s2", "SmartSPIM", some ⟨"c", "spim", 3⟩⟩],
        x.created ≤ (⟨"c", "spim", 3⟩ : DataAsset).created :=
  (C3_run_capsule_ordered_submission
      { sessions := [⟨"s1", "ecephys", some ⟨"a", "rawA", 1⟩⟩,
                     ⟨"s2", "SmartSPIM", some ⟨"c", "spim", 3⟩⟩]
        sortedFetches := [.ok [⟨"b", "sortedB", 2⟩]]
        catalog := [⟨"m", "744740_data_converter_manifest", 4⟩]
        subjectId := "744740" }
      [⟨"b", "sortedB", 2⟩] ⟨"c", "spim", 3⟩
      ⟨"m", "744740_data_converter_manifest", 4⟩
      (by decide) (by decide) (by decide))

/-- C5: with an empty SmartSPIM collection the trigger submits nothing, and —
provided the sorted-data fetch itself did not already raise — the failure is
precisely the empty-artifact-set error raised while indexing
`smartspim_data_assets[-1]`, before any submission. -/
theorem C5_empty_smartspim_no_submission (env : RunEnv)
    (h : smartspimDataAssets env.sessions = []) :
    (runDataConverterCapsule env).1 = [] ∧
      ∀ sortedAssets,
        sortedDataAssetsRun env.sortedFetches = .ok sortedAssets →
          runDataConverterCapsule env = ([], .error .emptyArtifactSet) := by
  constructor
  · unfold runDataConverterCapsule
    match hrun : sortedDataAssetsRun env.sortedFetches with
    | .error e => rfl
    | .ok sortedAssets =>
      rw [h]
      rfl
  · intro sortedAssets hok
    unfold runDataConverterCapsule
    rw [hok, h]
    rfl

/-- Witness for C5: a subject with no SmartSPIM session and a successful
(empty) fetch round submits nothing and fails with the empty-set error. -/
theorem C5_empty_smartspim_no_submission_witness :
    (runDataConverterCapsule
        { sessions := [⟨"s1", "ecephys", some ⟨"a", "rawA", 1⟩⟩]
          sortedFetches := []
          catalog := []
          subjectId := "744740" }).1 = [] ∧
      runDataConverterCapsule
          { sessions := [⟨"s1", "ecephys", some ⟨"a", "rawA", 1⟩⟩]
            sortedFetches := []
            catalog := []
            subjectId := "744740" } = ([], .error .emptyArtifactSet) :=
  ⟨(C5_empty_smartspim_no_submission _ (by decide)).1,
   (C5_empty_smartspim_no_submission
      { sessions := [⟨"s1", "ecephys", some ⟨"a", "rawA", 1⟩⟩]
        sortedFetches := []
        catalog := []
        subjectId := "744740" } (by decide)).2 [] (by decide)⟩

/-! ## Manifest asset lifecycle (`create_manifest_asset`) -/

/-- The state `create_manifest_asset` touches: the remote catalog (in
registration order), a fresh-id counter, the number of manifest writes to
durable storage, and a clock supplying creation timestamps. -/
structure ConvState where
  catalog : List DataAsset
  nextId : Nat
  writes : Nat
  now : Nat
  deriving DecidableEq

/-- The non-short-circuit path of `create_manifest_asset`: write the CSV to
storage (the write becomes visible within the poll window), register a new
asset named `asset_name or stem` with a fresh id, and wait until it is ready
(`wait_until_ready` returns the registered asset). -/
def registerManifestAsset (st : ConvState) (subjectId : String)
    (assetName : Option String) : DataAsset × ConvState :=
  let name := assetName.getD (manifestStem subjectId)
  let asset : DataAsset := ⟨toString st.nextId, name, st.now⟩
  (asset,
    { catalog := st.catalog ++ [asset]
      nextId := st.nextId + 1
      writes := st.writes + 1
      now := st.now + 1 })

/-- `IBLDataConverterExtension.create_manifest_asset`: with `skip_existing`
set, an already-registered manifest asset is returned unchanged (the
informational log is the only effect); otherwise the manifest is written and
a new asset registered. -/
def createManifestAsset (st : ConvState) (subjectId : String)
    (assetName : Option String) (skipExisting : Bool) : DataAsset × ConvState :=
  match skipExisting, manifestDataAsset? st.catalog subjectId with
  | true, some existing => (existing, st)
  | true, none => registerManifestAsset st subjectId assetName
  | false, _ => registerManifestAsset st subjectId assetName

theorem manifestDataAsset?_none_filter_nil {catalog : List DataAsset}
    {sid : String} (h : manifestDataAsset? catalog sid = none) :
    catalog.filter (fun a => a.name == manifestStem sid) = [] := by
  rw [manifestDataAsset?, List.getLast?_eq_none_iff] at h
  have hperm := List.perm_insertionSort createdLe
    (catalog.filter (fun a => a.name == manifestStem sid))
  rw [getDataAssetsByName, sortByCreated] at h
  rw [h] at hperm
  exact hperm.nil_eq.symm

/-- C4: calling `create_manifest_asset` twice with the derived name
(`asset_name = None`) and `skip_existing = True` is idempotent: the second
call returns the same asset and leaves the state untouched — in particular
the same artifact identifier is returned both times, no second write is
performed and no new artifact is registered. -/
theorem C4_createManifestAsset_idempotent (st : ConvState) (sid : String) :
    createManifestAsset (createManifestAsset st sid none true).2 sid none true =
      createManifestAsset st sid none true := by
  match hm : manifestDataAsset? st.catalog sid with
  | some existing =>
    simp [createManifestAsset, hm]
  | none =>
    have hfilter := manifestDataAsset?_none_filter_nil hm
    simp only [createManifestAsset, hm, registerManifestAsset, Option.getD]
    have hlookup : manifestDataAsset?
        (st.catalog ++ [⟨toString st.nextId, manifestStem sid, st.now⟩]) sid =
        some ⟨toString st.nextId, manifestStem sid, st.now⟩ := by
      rw [manifestDataAsset?, getDataAssetsByName, List.filter_append, hfilter]
      simp [sortByCreated, List.insertionSort]
    simp [hlookup]

/-- Concrete check of the lifecycle model: from an empty catalog, the first
call registers asset "0" with the derived manifest name after one write, and
the second call returns it with the state unchanged. -/
theorem createManifestAsset_concrete_check :
    createManifestAsset
        (createManifestAsset ⟨[], 0, 0, 0⟩ "744740" none true).2
        "744740" none true =
      (⟨"0", "744740_data_converter_manifest", 0⟩,
        ⟨[⟨"0", "744740_data_converter_manifest", 0⟩], 1, 1, 1⟩) := by
  decide

end IBLConv
